import Mathlib

/-!
Shallow embedding of the r-listener crawler core, translated from the
TypeScript sources:

* `src/gcp/clients/vertex-completion.client.ts` — transport retry with
  exponential backoff, JSON-mode response cleansing, cost computation;
* `src/analysis/services/media-analysis.service.ts` — application-level
  retry around schema validation;
* `src/automation/services/enhanced-actions.service.ts` — gesture
  synthesis (taps, swipes, scroll-into-view) and the screen-recording
  lifecycle;
* `src/automation/instagram-crawler.ts` — the per-reel pipeline.

JavaScript numbers are modelled as exact rationals (`ℚ`); `Math.floor`
is `Int.floor` and `Math.round x` is `⌊x + 1/2⌋` (JS rounds half toward
positive infinity).  Every call to `Math.random()` becomes an explicit
rational parameter constrained to `[0, 1)`.  Asynchronous effects are
modelled by explicit traces (call counts, delay lists, event lists).
-/

/-- JS `Math.round`: rounds half toward positive infinity. -/
def jsRound (q : ℚ) : ℤ := ⌊q + 1 / 2⌋

/-- JS `Math.floor`. -/
def jsFloor (q : ℚ) : ℤ := ⌊q⌋

/-! ## VertexCompletionClient.retryWithExponentialBackoff

From `vertex-completion.client.ts` lines 74–111.  The operation passed to
the wrapper is modelled by the outcome of each attempt: it either returns
a value, throws a transient error (`SyntaxError` from JSON parsing or a
Google 503 overload error), or throws any other (fatal) error.
-/

inductive AttemptOutcome (α : Type) where
  | success (value : α)
  | transient
  | fatal
  deriving DecidableEq

structure RetryConfig where
  maxAttempts : ℕ
  initialDelay : ℕ
  maxDelay : ℕ
  deriving DecidableEq

inductive RetryOutcome (α : Type) where
  | ok (value : α)
  | fatalError
  | exhausted
  deriving DecidableEq

/-- Observable trace of one wrapper run: final outcome, how many times the
operation was invoked, and the sequence of sleep delays (ms). -/
structure RetryTrace (α : Type) where
  outcome : RetryOutcome α
  calls : ℕ
  delays : List ℕ
  deriving DecidableEq

/-- The `try { return await operation() } catch` body of one loop
iteration: a successful operation returns its value; a fatal
(non-transient) error is rethrown immediately; a transient error
(`is_json_error || is_overloaded_error`) falls through to the
retry-or-break continuation. -/
def attemptStep (o : AttemptOutcome α) (onTransient : Unit → RetryTrace α) :
    RetryTrace α :=
  match o with
  | .success v => ⟨.ok v, 1, []⟩
  | .fatal => ⟨.fatalError, 1, []⟩
  | .transient => onTransient ()

/-- The `for (let attempt = 1; attempt <= maxAttempts; attempt++)` loop of
`retryWithExponentialBackoff`, with the remaining iteration count made
structural: `remaining = maxAttempts - attempt + 1`.  `remaining = 0` means
the loop guard failed (attempt would exceed `maxAttempts`) and the terminal
"Failed after maxAttempts attempts" error is raised; `remaining = 1` means
`attempt === maxAttempts`, where a transient failure breaks out of the loop
to the same terminal error.  Otherwise a transient failure updates
`delay = min(delay * 2, maxDelay)`, sleeps for that delay, and retries. -/
def retryLoop (op : ℕ → AttemptOutcome α) (maxDelay : ℕ) :
    ℕ → ℕ → ℕ → RetryTrace α
  | 0, _, _ => ⟨.exhausted, 0, []⟩
  | 1, attempt, _ => attemptStep (op attempt) (fun _ => ⟨.exhausted, 1, []⟩)
  | remaining + 2, attempt, delay =>
    attemptStep (op attempt) (fun _ =>
      let d := min (delay * 2) maxDelay
      let rest := retryLoop op maxDelay (remaining + 1) (attempt + 1) d
      ⟨rest.outcome, rest.calls + 1, d :: rest.delays⟩)

/-- `retryWithExponentialBackoff(operation, config)`: run the loop from
attempt 1 with `delay = config.initialDelay`. -/
def retryWithExponentialBackoff (op : ℕ → AttemptOutcome α)
    (cfg : RetryConfig) : RetryTrace α :=
  retryLoop op cfg.maxDelay cfg.maxAttempts 1 cfg.initialDelay

/-- Operation that fails transiently on attempts `1..failures` and then
succeeds on attempt `failures + 1` (the scenario quantified over in the
backoff claim: `failures` consecutive transient failures). -/
def transientThenSuccess (failures : ℕ) : ℕ → AttemptOutcome Unit :=
  fun attempt => if attempt ≤ failures then .transient else .success ()

/-- Closed form of the sleep-delay sequence the loop produces when it
starts from doubling `δ`: `n` delays, each `min(previous * 2, maxDelay)`. -/
def backoffDelays (maxDelay δ : ℕ) : ℕ → List ℕ
  | 0 => []
  | n + 1 =>
    let d := min (δ * 2) maxDelay
    d :: backoffDelays maxDelay d n

/-! ## VertexCompletionClient.calculateCost

From `vertex-completion.client.ts` lines 124–137. -/

structure ModelPricing where
  inputCostPer1M : ℚ
  outputCostPer1M : ℚ
  deriving DecidableEq

/-- `result.response.usageMetadata?.promptTokenCount` /
`candidatesTokenCount`; `none` models a missing field (defaulted by `?? 0`). -/
structure UsageMetadata where
  promptTokenCount : Option ℕ
  candidatesTokenCount : Option ℕ
  deriving DecidableEq

/-- `calculateCost` translated line by line. -/
def calculateCost (modelConfig : ModelPricing) (usage : UsageMetadata) : ℚ :=
  let input_tokens : ℚ := (usage.promptTokenCount.getD 0 : ℕ)
  let output_tokens : ℚ := (usage.candidatesTokenCount.getD 0 : ℕ)
  let input_cost := input_tokens / 1000000 * modelConfig.inputCostPer1M
  let output_cost := output_tokens / 1000000 * modelConfig.outputCostPer1M
  let total_cost := input_cost + output_cost
  (jsRound (total_cost * 1000000) : ℚ) / 1000000

/-- Rounding to six decimal places, as the spec words it. -/
def roundTo6 (x : ℚ) : ℚ := (jsRound (x * 1000000) : ℚ) / 1000000

/-- Modelled from the spec sentence `cost = round((input_tokens/1e6 *
input_rate + output_tokens/1e6 * output_rate), 6 decimal places)`, to be
compared with `calculateCost` as translated from the source. -/
def specCalculateCost (modelConfig : ModelPricing)
    (input_tokens output_tokens : ℕ) : ℚ :=
  roundTo6 ((input_tokens : ℚ) / 1000000 * modelConfig.inputCostPer1M +
    (output_tokens : ℚ) / 1000000 * modelConfig.outputCostPer1M)

/-- The pre-rounding input component cost. -/
def inputComponentCost (modelConfig : ModelPricing) (tokens : ℕ) : ℚ :=
  (tokens : ℚ) / 1000000 * modelConfig.inputCostPer1M

/-- The pre-rounding output component cost. -/
def outputComponentCost (modelConfig : ModelPricing) (tokens : ℕ) : ℚ :=
  (tokens : ℚ) / 1000000 * modelConfig.outputCostPer1M

/-! ## EnhancedActionsService screen-recording lifecycle

From `enhanced-actions.service.ts` lines 14 and 872–928.  Besides the
`is_screen_recording` flag we track how many driver-level captures
(`startRecordingScreen` minus `stopRecordingScreen`) are currently in
flight, to express "no second capture is started". -/

structure RecorderState where
  is_screen_recording : Bool
  driver_captures : ℕ
  deriving DecidableEq

/-- Initial service state: `private is_screen_recording = false`. -/
def recorderInit : RecorderState := ⟨false, 0⟩

/-- `startScreenRecording`: if already recording, log a warning and return
without touching the driver; otherwise set the flag and start a capture.
Returns the new state and whether the warning was logged. -/
def startScreenRecording (s : RecorderState) : RecorderState × Bool :=
  if s.is_screen_recording then (s, true)
  else ({ is_screen_recording := true,
          driver_captures := s.driver_captures + 1 }, false)

/-- The error thrown by `saveScreenRecording` when no recording is active
("Screen recording not started"). -/
structure RecordingStateError where
  deriving DecidableEq

/-- `saveScreenRecording`: throws `RecordingStateError` (before any state
mutation) when `is_screen_recording` is false; otherwise clears the flag
and stops the driver capture. -/
def saveScreenRecording (s : RecorderState) :
    Except RecordingStateError RecorderState :=
  if s.is_screen_recording then
    .ok { is_screen_recording := false,
          driver_captures := s.driver_captures - 1 }
  else .error ⟨⟩

inductive RecOp where
  | start
  | save
  deriving DecidableEq

/-- Run a sequence of start/save calls.  A thrown `RecordingStateError`
leaves the state unchanged (the throw happens before any mutation). -/
def runRecOps : List RecOp → RecorderState → RecorderState
  | [], s => s
  | .start :: ops, s => runRecOps ops (startScreenRecording s).1
  | .save :: ops, s =>
    match saveScreenRecording s with
    | .ok s2 => runRecOps ops s2
    | .error _ => runRecOps ops s

/-! ## InstagramCrawler.crawlReels: comment-scroll count and upload step

From `instagram-crawler.ts` lines 302–357. -/

/-- `const scrolls = Math.min(Math.floor(comment_count / 10), 8)`. -/
def commentScrollBound (comment_count : ℕ) : ℕ :=
  min (comment_count / 10) 8

/-- `const randomized_scrolls = 1` — the pinned constant that replaces the
commented-out randomization around `scrolls`. -/
def randomized_scrolls : ℕ := 1

/-- Number of `swipeScreen` gestures the comment-recording loop performs:
`for (let scroll = 0; scroll < randomized_scrolls; scroll++)`. -/
def commentScrollsPerformed (_comment_count : ℕ) : ℕ := randomized_scrolls

/-- Observable steps of the per-reel upload/cleanup/analysis tail. -/
inductive ReelStep where
  | uploadCall
  | unlinkCall
  | raiseUploadFailure
  | analyzeCall
  deriving DecidableEq

/-- Lines 329–357 of `crawlReels`: upload the recording, `fs.unlink` the
local file, then `if (!recording_uri) throw` (UploadFailure) else run the
comment analysis.  `recording_uri` is the collaborator's return value
(`undefined` modelled as `none`; `uploadLocalFile` never returns the empty
string, so JS falsiness coincides with `undefined`). -/
def reelUploadSteps (recording_uri : Option String) : List ReelStep :=
  [.uploadCall, .unlinkCall] ++
    match recording_uri with
    | none => [.raiseUploadFailure]
    | some _ => [.analyzeCall]

/-! ## MediaAnalysisService.analyze

From `media-analysis.service.ts` (the variant used by the crawler, with
`schema.parse`).  The zod call `schema.parse(completion?.response)` either
throws a `ZodError` (shape validation failed) or returns the parsed value;
the service then tests `if (!result.parsed && retryCount < maxRetries)`,
i.e. the JS truthiness of the returned value.  We model the outcome of the
zod parse on the `n`-th completion's response (`n` is the 0-based
`retryCount` of the attempt) and record the JS truthiness of a returned
value explicitly. -/

inductive ZodParseResult (α : Type) where
  | throws
  | returns (value : α) (truthy : Bool)
  deriving DecidableEq

/-- Trace of one `analyze` run: either the `ZodError` propagates
(`Except.error`) or the last attempt's parsed value (with its truthiness)
is returned, together with the number of underlying completion calls. -/
structure AnalyzeTrace (α : Type) where
  result : Except Unit (α × Bool)
  completionCalls : ℕ

/-- `const maxRetries = 3` in `analyze`. -/
def maxRetries : ℕ := 3

/-- `analyze(input, temperature, retryCount)`: dispatch to
`analyzeImage`/`analyzeVideo` (one completion call whose response is
validated by `schema.parse`), then
`if (!result.parsed && retryCount < maxRetries) return this.analyze(input,
temperature, retryCount + 1)`.  A throwing parse propagates out of the
switch before that test is reached. -/
def analyze (parses : ℕ → ZodParseResult α) (retryCount : ℕ) :
    AnalyzeTrace α :=
  match parses retryCount with
  | .throws => ⟨.error (), 1⟩
  | .returns v truthy =>
    if h : truthy = false ∧ retryCount < maxRetries then
      let rest := analyze parses (retryCount + 1)
      ⟨rest.result, rest.completionCalls + 1⟩
    else ⟨.ok (v, truthy), 1⟩
termination_by maxRetries - retryCount
decreasing_by omega

/-- Per-attempt parse outcomes: the zod parse throws on every attempt
(what an object schema does on every shape-validation failure). -/
def throwsEveryTime : ℕ → ZodParseResult Unit := fun _ => .throws

/-- Per-attempt parse outcomes: the parse returns a falsy value on
attempts 0 and 1 and a truthy value from attempt 2 on — the only kind of
outcome that exercises the `!result.parsed` retry branch. -/
def falsyTwiceThenTruthy : ℕ → ZodParseResult Unit
  | 0 => .returns () false
  | 1 => .returns () false
  | _ => .returns () true

/-! ## EnhancedActionsService.scrollToElement

From `enhanced-actions.service.ts` lines 42–184. -/

inductive ViewportPosition where
  | above
  | below
  | left
  | right
  | inViewport
  deriving DecidableEq

inductive SwipeDirection where
  | up
  | down
  | left
  | right
  deriving DecidableEq

inductive SwipeSpeed where
  | fast
  | medium
  | slow
  deriving DecidableEq

inductive SwipeLength where
  | short
  | medium
  | long
  deriving DecidableEq

inductive Handedness where
  | left
  | right
  | neutral
  deriving DecidableEq

/-- `getSwipeDirectionForElement` (lines 141–162): the `default` case of
the switch covers the in-viewport position. -/
def getSwipeDirectionForElement (elementPosition : ViewportPosition)
    (alignToTop : Bool) : SwipeDirection :=
  match elementPosition with
  | .above => .down
  | .below => .up
  | .left => .right
  | .right => .left
  | .inViewport => if alignToTop then .up else .down

/-- `getOptimalSwipeLength` (lines 170–184); `r` is the `Math.random()`
draw. -/
def getOptimalSwipeLength (elementPosition : ViewportPosition) (r : ℚ) :
    SwipeLength :=
  match elementPosition with
  | .above | .below => if r > 1 / 2 then .medium else .long
  | .left | .right => if r > 3 / 10 then .short else .medium
  | .inViewport => .short

/-- What one iteration of the `scrollToElement` loop does. -/
inductive ScrollIterAction where
  | returnVisible
  | returnObscured
  | swipe (dir : SwipeDirection) (len : SwipeLength)
  deriving DecidableEq

/-- One iteration of the `while (attempts < maxAttempts)` loop of
`scrollToElement` (lines 51–84): if the element is visible, return; if its
viewport position is `"in-viewport"`, log "Element is in viewport but not
visible" and return; otherwise map position to swipe direction and length
and perform the swipe. -/
def scrollToElementIter (visible : Bool) (pos : ViewportPosition)
    (alignToTop : Bool) (r : ℚ) : ScrollIterAction :=
  if visible then .returnVisible
  else if pos = .inViewport then .returnObscured
  else .swipe (getSwipeDirectionForElement pos alignToTop)
    (getOptimalSwipeLength pos r)

/-! ## EnhancedActionsService gesture coordinate synthesis

From `enhanced-actions.service.ts` lines 442–854.  Window sizes and
element geometry are integer pixel values; all intermediate arithmetic is
rational.  The driver receives `Math.round`ed coordinates. -/

structure WindowSize where
  width : ℤ
  height : ℤ
  deriving DecidableEq

/-- An element's `getLocation()` and `getSize()` results. -/
structure ElemRect where
  x : ℤ
  y : ℤ
  width : ℤ
  height : ℤ
  deriving DecidableEq

/-- The coordinates handed to `web_driver.swipe` plus the duration. -/
structure SwipeGesture where
  fromX : ℤ
  fromY : ℤ
  toX : ℤ
  toY : ℤ
  duration : ℤ
  deriving DecidableEq

/-- The `Math.random()` draws of one swipe computation, in evaluation
order: start-position horizontal and vertical draws, distance-multiplier
draw, duration draw, drift draw. -/
structure SwipeRands where
  rStartX : ℚ
  rStartY : ℚ
  rMult : ℚ
  rDur : ℚ
  rDrift : ℚ
  deriving DecidableEq

/-- Every `Math.random()` result lies in `[0, 1)`. -/
def SwipeRands.valid (ρ : SwipeRands) : Prop :=
  0 ≤ ρ.rStartX ∧ ρ.rStartX < 1 ∧ 0 ≤ ρ.rStartY ∧ ρ.rStartY < 1 ∧
    0 ≤ ρ.rMult ∧ ρ.rMult < 1 ∧ 0 ≤ ρ.rDur ∧ ρ.rDur < 1 ∧
    0 ≤ ρ.rDrift ∧ ρ.rDrift < 1

instance (ρ : SwipeRands) : Decidable ρ.valid := by
  unfold SwipeRands.valid; infer_instance

/-- `getSwipeDuration` (lines 445–454). -/
def getSwipeDuration (speed : SwipeSpeed) (r : ℚ) : ℚ :=
  match speed with
  | .fast => 50 + r * 50
  | .medium => 100 + r * 100
  | .slow => 200 + r * 200

/-- `getSwipeDistanceMultiplier` (lines 459–468). -/
def getSwipeDistanceMultiplier (length : SwipeLength) (r : ℚ) : ℚ :=
  match length with
  | .short => 1 / 5 + r * (3 / 20)
  | .medium => 2 / 5 + r * (1 / 5)
  | .long => 7 / 10 + r * (1 / 4)

/-- `getHandedStartPosition` (lines 474–510): handedness-biased start
clamped to `[50, windowWidth - 50] × [50, windowHeight - 50]`. -/
def getHandedStartPosition (centerX centerY windowWidth windowHeight : ℚ)
    (handedness : Handedness) (rX rY : ℚ) : ℚ × ℚ :=
  let horizontalBias := windowWidth * (35 / 100)
  let verticalVariation := min (windowHeight * (25 / 100)) 100
  let startX :=
    match handedness with
    | .right => centerX + horizontalBias + rX * 30
    | .left => centerX - horizontalBias - rX * 30
    | .neutral => centerX + (rX - 1 / 2) * 50
  let startY := centerY + (rY - 1 / 2) * verticalVariation
  (max 50 (min (windowWidth - 50) startX),
    max 50 (min (windowHeight - 50) startY))

/-- `getHandedStartPositionInElement` (lines 515–548): handedness-biased
start inside an element; note the source applies no clamping here. -/
def getHandedStartPositionInElement
    (centerX centerY elementWidth elementHeight : ℚ)
    (handedness : Handedness) (rX rY : ℚ) : ℚ × ℚ :=
  let horizontalBias := elementWidth * (35 / 100)
  let maxVariation := min (elementWidth * (1 / 10)) 30
  let startX :=
    match handedness with
    | .right => centerX + horizontalBias * (1 / 2) + rX * maxVariation
    | .left => centerX - horizontalBias * (1 / 2) - rX * maxVariation
    | .neutral => centerX + (rX - 1 / 2) * maxVariation
  let verticalVariation := min (elementHeight * (25 / 100)) 100
  let startY := centerY + (rY - 1 / 2) * verticalVariation
  (startX, startY)

/-- `swipeScreen` (lines 558–627). -/
def swipeScreen (direction : SwipeDirection) (speed : SwipeSpeed)
    (length : SwipeLength) (handedness : Handedness) (win : WindowSize)
    (ρ : SwipeRands) : SwipeGesture :=
  let W : ℚ := (win.width : ℚ)
  let H : ℚ := (win.height : ℚ)
  let centerX : ℚ := (jsFloor (W / 2) : ℤ)
  let centerY : ℚ := (jsFloor (H / 2) : ℤ)
  let start := getHandedStartPosition centerX centerY W H handedness
    ρ.rStartX ρ.rStartY
  let startX := start.1
  let startY := start.2
  let distanceMultiplier := getSwipeDistanceMultiplier length ρ.rMult
  let duration := getSwipeDuration speed ρ.rDur
  let moved :=
    match direction with
    | .up =>
      (startX + (ρ.rDrift - 1 / 2) * 40,
        startY - (startY - 10) * distanceMultiplier)
    | .down =>
      (startX + (ρ.rDrift - 1 / 2) * 40,
        startY + (H - 10 - startY) * distanceMultiplier)
    | .left =>
      (startX - (startX - 10) * distanceMultiplier,
        startY + (ρ.rDrift - 1 / 2) * 40)
    | .right =>
      (startX + (W - 10 - startX) * distanceMultiplier,
        startY + (ρ.rDrift - 1 / 2) * 40)
  let endX := max 10 (min (W - 10) moved.1)
  let endY := max 10 (min (H - 10) moved.2)
  ⟨jsRound startX, jsRound startY, jsRound endX, jsRound endY,
    jsRound duration⟩

/-- `swipeWithinElement` (lines 640–735); `none` models the early return
"Element too small for swipe gesture". -/
def swipeWithinElement (el : ElemRect) (direction : SwipeDirection)
    (speed : SwipeSpeed) (length : SwipeLength) (handedness : Handedness)
    (ρ : SwipeRands) : Option SwipeGesture :=
  let padding : ℚ := 10
  let usableWidth : ℚ := (el.width : ℚ) - padding * 2
  let usableHeight : ℚ := (el.height : ℚ) - padding * 2
  if usableWidth ≤ 20 ∨ usableHeight ≤ 20 then none
  else
    let centerX : ℚ := (el.x : ℚ) + (el.width : ℚ) / 2
    let centerY : ℚ := (el.y : ℚ) + (el.height : ℚ) / 2
    let start := getHandedStartPositionInElement centerX centerY
      (el.width : ℚ) (el.height : ℚ) handedness ρ.rStartX ρ.rStartY
    let startX := start.1
    let startY := start.2
    let distanceMultiplier := getSwipeDistanceMultiplier length ρ.rMult
    let duration := getSwipeDuration speed ρ.rDur
    let moved :=
      match direction with
      | .up =>
        (startX + (ρ.rDrift - 1 / 2) * min (usableWidth * (1 / 10)) 20,
          startY - (startY - ((el.y : ℚ) + padding)) * distanceMultiplier)
      | .down =>
        (startX + (ρ.rDrift - 1 / 2) * min (usableWidth * (1 / 10)) 20,
          startY + ((el.y : ℚ) + (el.height : ℚ) - padding - startY) *
            distanceMultiplier)
      | .left =>
        (startX - (startX - ((el.x : ℚ) + padding)) * distanceMultiplier,
          startY + (ρ.rDrift - 1 / 2) * min (usableHeight * (1 / 10)) 20)
      | .right =>
        (startX + ((el.x : ℚ) + (el.width : ℚ) - padding - startX) *
            distanceMultiplier,
          startY + (ρ.rDrift - 1 / 2) * min (usableHeight * (1 / 10)) 20)
    let endX := max ((el.x : ℚ) + padding)
      (min ((el.x : ℚ) + (el.width : ℚ) - padding) moved.1)
    let endY := max ((el.y : ℚ) + padding)
      (min ((el.y : ℚ) + (el.height : ℚ) - padding) moved.2)
    some ⟨jsRound startX, jsRound startY, jsRound endX, jsRound endY,
      jsRound duration⟩

/-- `swipeStartingFromElement` (lines 749–854); `none` models the early
return "Element too small for swipe gesture". -/
def swipeStartingFromElement (el : ElemRect) (direction : SwipeDirection)
    (speed : SwipeSpeed) (length : SwipeLength) (handedness : Handedness)
    (win : WindowSize) (ρ : SwipeRands) : Option SwipeGesture :=
  let padding : ℚ := 5
  let usableWidth : ℚ := (el.width : ℚ) - padding * 2
  let usableHeight : ℚ := (el.height : ℚ) - padding * 2
  if usableWidth ≤ 10 ∨ usableHeight ≤ 10 then none
  else
    let W : ℚ := (win.width : ℚ)
    let H : ℚ := (win.height : ℚ)
    let centerX : ℚ := (el.x : ℚ) + (el.width : ℚ) / 2
    let centerY : ℚ := (el.y : ℚ) + (el.height : ℚ) / 2
    let start := getHandedStartPositionInElement centerX centerY
      (el.width : ℚ) (el.height : ℚ) handedness ρ.rStartX ρ.rStartY
    let constrainedStartX := max ((el.x : ℚ) + padding)
      (min ((el.x : ℚ) + (el.width : ℚ) - padding) start.1)
    let constrainedStartY := max ((el.y : ℚ) + padding)
      (min ((el.y : ℚ) + (el.height : ℚ) - padding) start.2)
    let distanceMultiplier := getSwipeDistanceMultiplier length ρ.rMult
    let duration := getSwipeDuration speed ρ.rDur
    let moved :=
      match direction with
      | .up =>
        (constrainedStartX + (ρ.rDrift - 1 / 2) * 40,
          constrainedStartY - (constrainedStartY - 10) * distanceMultiplier)
      | .down =>
        (constrainedStartX + (ρ.rDrift - 1 / 2) * 40,
          constrainedStartY + (H - 10 - constrainedStartY) *
            distanceMultiplier)
      | .left =>
        (constrainedStartX - (constrainedStartX - 10) * distanceMultiplier,
          constrainedStartY + (ρ.rDrift - 1 / 2) * 40)
      | .right =>
        (constrainedStartX + (W - 10 - constrainedStartX) *
            distanceMultiplier,
          constrainedStartY + (ρ.rDrift - 1 / 2) * 40)
    let endX := max 10 (min (W - 10) moved.1)
    let endY := max 10 (min (H - 10) moved.2)
    some ⟨jsRound constrainedStartX, jsRound constrainedStartY,
      jsRound endX, jsRound endY, jsRound duration⟩

/-! ## EnhancedActionsService.tapRandomPointAboveElement

From `enhanced-actions.service.ts` lines 373–440. -/

/-- The two `Math.random()` draws of one tap-above computation. -/
structure TapRands where
  rX : ℚ
  rY : ℚ
  deriving DecidableEq

def TapRands.valid (ρ : TapRands) : Prop :=
  0 ≤ ρ.rX ∧ ρ.rX < 1 ∧ 0 ≤ ρ.rY ∧ ρ.rY < 1

instance (ρ : TapRands) : Decidable ρ.valid := by
  unfold TapRands.valid; infer_instance

/-- `tapRandomPointAboveElement`, returning the rounded tap coordinate
handed to `web_driver.tap`. -/
def tapRandomPointAboveElement (el : ElemRect) (win : WindowSize)
    (handedness : Handedness) (verticalOffset : ℚ) (ρ : TapRands) :
    ℤ × ℤ :=
  let elementCenterX : ℚ := (el.x : ℚ) + (el.width : ℚ) / 2
  let tapAreaTop := max 10 ((el.y : ℚ) - verticalOffset - 50)
  let tapAreaBottom := max (tapAreaTop + 20) ((el.y : ℚ) - 10)
  let maxHorizontalBias :=
    min ((el.width : ℚ) * (4 / 10)) ((win.width : ℚ) * (2 / 10))
  let tapX :=
    match handedness with
    | .right => elementCenterX + ρ.rX * maxHorizontalBias
    | .left => elementCenterX - ρ.rX * maxHorizontalBias
    | .neutral => elementCenterX + (ρ.rX - 1 / 2) * (maxHorizontalBias * (1 / 2))
  let tapAreaHeight := max 1 (tapAreaBottom - tapAreaTop)
  let tapY := tapAreaTop + ρ.rY * tapAreaHeight
  let finalTapX := max 10 (min ((win.width : ℚ) - 10) tapX)
  let finalTapY := max 10 (min ((win.height : ℚ) - 10) tapY)
  (jsRound finalTapX, jsRound finalTapY)

/-! ## VertexCompletionClient.parseResultIntoJSON

From `vertex-completion.client.ts` lines 113–117:
`result.replace(/` ``` `/g, "").replace("json", "")` — the global regex
removes every (leftmost, non-overlapping) occurrence of the three-backtick
fence marker, while the plain-string `replace` removes only the first
occurrence of the literal substring `json`, wherever in the text it
appears.  The cleansed text is then handed to `JSON.parse`. -/

/-- Whether `pat` occurs at the head of `s`. -/
def matchesFront : List Char → List Char → Bool
  | [], _ => true
  | _ :: _, [] => false
  | p :: ps, c :: cs => p == c && matchesFront ps cs

/-- JS `String.prototype.replace` with a global pattern and empty
replacement: scan left to right, deleting each non-overlapping occurrence
of `pat`; scanning resumes after the deleted occurrence.  `fuel` only
bounds the recursion and is set to the string length by `removeAllOcc`. -/
def removeAllOccFuel (pat : List Char) : ℕ → List Char → List Char
  | 0, s => s
  | _, [] => []
  | fuel + 1, c :: cs =>
    if matchesFront pat (c :: cs) && !pat.isEmpty then
      removeAllOccFuel pat fuel ((c :: cs).drop pat.length)
    else c :: removeAllOccFuel pat fuel cs

def removeAllOcc (pat s : List Char) : List Char :=
  removeAllOccFuel pat s.length s

/-- JS `String.prototype.replace` with a plain-string pattern and empty
replacement: delete only the first occurrence of `pat`. -/
def removeFirstOcc (pat : List Char) : List Char → List Char
  | [] => []
  | c :: cs =>
    if matchesFront pat (c :: cs) && !pat.isEmpty then (c :: cs).drop pat.length
    else c :: removeFirstOcc pat cs

/-- The cleansing step of `parseResultIntoJSON`: the text handed to
`JSON.parse`. -/
def parseResultCleansedText (result : String) : String :=
  String.mk (removeFirstOcc ("json".toList) (removeAllOcc ("```".toList) result.toList))

/-- Reads the body of a JSON string literal (no escape handling: none of
the inputs below contain backslashes) up to the closing quote; returns the
body and the remaining characters. -/
def readStringLit : List Char → Option (List Char × List Char)
  | [] => none
  | c :: cs =>
    if c = '"' then some ([], cs)
    else
      match readStringLit cs with
      | some (body, rest) => some (c :: body, rest)
      | none => none

/-- A restricted model of `JSON.parse`, sufficient for single-pair objects
of string key and string value: accepts exactly
`\x7b"key":"value"\x7d` and returns the pair. -/
def parseFlatObject (s : List Char) : Option (List Char × List Char) :=
  match s with
  | '\x7b' :: '"' :: rest =>
    match readStringLit rest with
    | some (key, ':' :: '"' :: rest2) =>
      match readStringLit rest2 with
      | some (value, '\x7d' :: []) => some (key, value)
      | _ => none
    | _ => none
  | _ => none

/-! ## Helper lemmas -/

theorem le_jsRound (a : ℤ) (q : ℚ) (h : (a : ℚ) ≤ q) : a ≤ jsRound q := by
  have h2 : ((a : ℚ) + 1 / 2) ≤ q + 1 / 2 := by linarith
  have h3 : ⌊(a : ℚ) + 1 / 2⌋ ≤ ⌊q + 1 / 2⌋ := Int.floor_le_floor h2
  have h4 : ⌊(a : ℚ) + 1 / 2⌋ = a := by
    rw [add_comm, Int.floor_add_int]
    norm_num
  rw [jsRound]
  omega

theorem jsRound_le (b : ℤ) (q : ℚ) (h : q ≤ (b : ℚ)) : jsRound q ≤ b := by
  have h2 : q + 1 / 2 ≤ (b : ℚ) + 1 / 2 := by linarith
  have h3 : ⌊q + 1 / 2⌋ ≤ ⌊(b : ℚ) + 1 / 2⌋ := Int.floor_le_floor h2
  have h4 : ⌊(b : ℚ) + 1 / 2⌋ = b := by
    rw [add_comm, Int.floor_add_int]
    norm_num
  rw [jsRound]
  omega

theorem jsRound_clamp_bounds (lo hi : ℚ) (a b : ℤ) (q : ℚ)
    (hlo : (a : ℚ) ≤ lo) (hhi : hi ≤ (b : ℚ)) (hlh : lo ≤ hi) :
    a ≤ jsRound (max lo (min hi q)) ∧ jsRound (max lo (min hi q)) ≤ b := by
  have h1 : lo ≤ max lo (min hi q) := le_max_left _ _
  have h2 : max lo (min hi q) ≤ hi := max_le hlh (min_le_left _ _)
  exact ⟨le_jsRound _ _ (le_trans hlo h1), jsRound_le _ _ (le_trans h2 hhi)⟩

theorem rand_mul_bounds (r m : ℚ) (h0 : 0 ≤ r) (h1 : r < 1) (hm : 0 ≤ m) :
    0 ≤ r * m ∧ r * m ≤ m := by
  constructor
  · exact mul_nonneg h0 hm
  · nlinarith

theorem centered_rand_mul_bounds (r m : ℚ) (h0 : 0 ≤ r) (h1 : r < 1)
    (hm : 0 ≤ m) : -(m / 2) ≤ (r - 1 / 2) * m ∧ (r - 1 / 2) * m ≤ m / 2 := by
  constructor <;> nlinarith

theorem runRecOps_captures (ops : List RecOp) :
    ∀ s : RecorderState,
      s.driver_captures = (if s.is_screen_recording then 1 else 0) →
      (runRecOps ops s).driver_captures =
        (if (runRecOps ops s).is_screen_recording then 1 else 0) := by
  induction ops with
  | nil => intro s hs; exact hs
  | cons op ops ih =>
    intro s hs
    cases op with
    | start =>
      rw [runRecOps]
      apply ih
      rw [startScreenRecording]
      by_cases h : s.is_screen_recording <;> simp [h] at hs ⊢ <;> omega
    | save =>
      rw [runRecOps]
      by_cases h : s.is_screen_recording
      · rw [saveScreenRecording]
        simp only [h, if_true]
        apply ih
        simp [h] at hs ⊢
        omega
      · rw [saveScreenRecording]
        simp only [h, if_false]
        exact ih s hs

/-- C3 counterexample: with the element not yet visible and classified
in-viewport, the `scrollToElement` iteration returns without performing
the swipe the claim prescribes for that case. -/
theorem scrollToElement_inViewport_counterexample :
    scrollToElementIter false .inViewport true 0 = .returnObscured ∧
    scrollToElementIter false .inViewport true 0 ≠
      .swipe (getSwipeDirectionForElement .inViewport true)
        (getOptimalSwipeLength .inViewport 0) := by
  constructor
  · rfl
  · decide

/-- C3 (amended): when the element is not visible and its position is
classified in-viewport, `scrollToElement` logs and RETURNS without
swiping; the mapping functions themselves would send the in-viewport
(default) case to direction `alignToTop ? up : down` and length `short`,
but `scrollToElement` never invokes them for that position. -/
theorem scrollToElement_inViewport_behavior (alignToTop : Bool) (r : ℚ) :
    scrollToElementIter false .inViewport alignToTop r = .returnObscured ∧
    getSwipeDirectionForElement .inViewport alignToTop =
      (if alignToTop then .up else .down) ∧
    getOptimalSwipeLength .inViewport r = .short := by
  refine ⟨rfl, rfl, rfl⟩

/-- C4: at most one recording is active at any time — after any sequence
of `startScreenRecording`/`saveScreenRecording` calls the number of
driver-level captures in flight is 1 when `is_screen_recording` and 0
otherwise (in particular, never 2); calling `saveScreenRecording` while
inactive raises `RecordingStateError`; calling `startScreenRecording`
while active leaves the state (including `is_screen_recording = true`)
unchanged, starts no second capture, and logs the warning. -/
theorem recording_singleton_invariant :
    (∀ ops : List RecOp,
      (runRecOps ops recorderInit).driver_captures ≤ 1 ∧
      (runRecOps ops recorderInit).driver_captures =
        (if (runRecOps ops recorderInit).is_screen_recording then 1 else 0)) ∧
    (∀ s : RecorderState, s.is_screen_recording = false →
      saveScreenRecording s = .error ⟨⟩) ∧
    (∀ s : RecorderState, s.is_screen_recording = true →
      (startScreenRecording s).1 = s ∧
      (startScreenRecording s).1.is_screen_recording = true ∧
      (startScreenRecording s).2 = true) := by
  refine ⟨fun ops => ?_, fun s hs => ?_, fun s hs => ?_⟩
  · have h := runRecOps_captures ops recorderInit rfl
    constructor
    · rw [h]; split <;> omega
    · exact h
  · rw [saveScreenRecording, hs]
    rfl
  · rw [startScreenRecording, hs]
    exact ⟨rfl, hs, rfl⟩

/-- C4 witness: concrete instances of the three parts. -/
theorem recording_singleton_invariant_witness :
    (runRecOps [RecOp.start, RecOp.start, RecOp.save] recorderInit).driver_captures ≤ 1 ∧
    saveScreenRecording ⟨false, 0⟩ = .error ⟨⟩ ∧
    (startScreenRecording ⟨true, 1⟩).1 = ⟨true, 1⟩ :=
  ⟨(recording_singleton_invariant.1 [RecOp.start, RecOp.start, RecOp.save]).1,
    recording_singleton_invariant.2.1 ⟨false, 0⟩ rfl,
    (recording_singleton_invariant.2.2 ⟨true, 1⟩ rfl).1⟩

/-- C5: in the per-reel upload tail, the local recording file is unlinked
in every execution (upload success or failure), and when the upload
collaborator returns an undefined URI the pipeline raises UploadFailure
and the analysis step is never reached. -/
theorem reel_upload_failure_before_analysis (uri : Option String) :
    ReelStep.unlinkCall ∈ reelUploadSteps uri ∧
    (uri = none →
      reelUploadSteps uri =
        [.uploadCall, .unlinkCall, .raiseUploadFailure] ∧
      ReelStep.analyzeCall ∉ reelUploadSteps uri) := by
  cases uri <;> simp [reelUploadSteps]

/-- C5 witness: the failed-upload execution. -/
theorem reel_upload_failure_before_analysis_witness :
    ReelStep.unlinkCall ∈ reelUploadSteps none ∧
    reelUploadSteps none = [.uploadCall, .unlinkCall, .raiseUploadFailure] ∧
    ReelStep.analyzeCall ∉ reelUploadSteps none :=
  ⟨(reel_upload_failure_before_analysis none).1,
    ((reel_upload_failure_before_analysis none).2 rfl).1,
    ((reel_upload_failure_before_analysis none).2 rfl).2⟩

/-- C7: `calculateCost` equals the spec formula
`round((input_tokens/1e6 * input_rate + output_tokens/1e6 * output_rate),
6 dp)` with missing token counts defaulting to zero; it is a pure function
of its arguments (hence deterministic), and doubling both token counts
doubles each pre-rounding component cost. -/
theorem calculateCost_matches_spec (p : ModelPricing) (u : UsageMetadata)
    (t_in t_out : ℕ) :
    calculateCost p u =
      specCalculateCost p (u.promptTokenCount.getD 0)
        (u.candidatesTokenCount.getD 0) ∧
    calculateCost p ⟨none, none⟩ = calculateCost p ⟨some 0, some 0⟩ ∧
    calculateCost p u =
      roundTo6 (inputComponentCost p (u.promptTokenCount.getD 0) +
        outputComponentCost p (u.candidatesTokenCount.getD 0)) ∧
    inputComponentCost p (2 * t_in) = 2 * inputComponentCost p t_in ∧
    outputComponentCost p (2 * t_out) = 2 * outputComponentCost p t_out := by
  refine ⟨rfl, rfl, rfl, ?_, ?_⟩
  · rw [inputComponentCost, inputComponentCost]
    push_cast
    ring
  · rw [outputComponentCost, outputComponentCost]
    push_cast
    ring

/-- C8: the computed comment-scroll bound is `min(floor(comment_count /
10), 8)` — in particular 4 for `comment_count = 47` — while the number of
scroll gestures the loop actually performs is the pinned constant
`randomized_scrolls = 1` regardless of `comment_count`. -/
theorem commentScroll_bound_and_override (c : ℕ) :
    commentScrollBound c = min (c / 10) 8 ∧
    commentScrollBound 47 = 4 ∧
    commentScrollsPerformed c = randomized_scrolls ∧
    randomized_scrolls = 1 := by
  refine ⟨rfl, by decide, rfl, rfl⟩

/-- C10: the JSON-mode cleanser removes every backtick fence marker and
only the first occurrence of the literal substring "json" wherever it
appears: a language-tagged fence is cleansed to its payload, but for a
fenced response with no language tag whose payload contains "json" inside
a string value, the text handed to `JSON.parse` differs from the payload
and parses to a different value than the provider returned. -/
theorem parseResultIntoJSON_cleansing_divergence :
    parseResultCleansedText "```json\x7b\"a\":\"b\"\x7d```" =
      "\x7b\"a\":\"b\"\x7d" ∧
    parseResultCleansedText "```\x7b\"a\":\"json\"\x7d```" =
      "\x7b\"a\":\"\"\x7d" ∧
    parseResultCleansedText "```\x7b\"a\":\"json\"\x7d```" ≠
      "\x7b\"a\":\"json\"\x7d" ∧
    parseFlatObject (String.toList "\x7b\"a\":\"json\"\x7d") =
      some (String.toList "a", String.toList "json") ∧
    parseFlatObject
        (String.toList (parseResultCleansedText "```\x7b\"a\":\"json\"\x7d```")) =
      some (String.toList "a", String.toList "") ∧
    parseResultCleansedText "```json\x7b\"a\":\"json\"\x7d```" =
      "\x7b\"a\":\"json\"\x7d" := by
  refine ⟨by decide, by decide, by decide, by decide, by decide, by decide⟩

theorem backoffDelays_length (M n : ℕ) : ∀ δ, (backoffDelays M δ n).length = n := by
  induction n with
  | zero => intro δ; rfl
  | succ n ih => intro δ; simp [backoffDelays, ih]

theorem min_doubling_absorb (M δ i : ℕ) :
    min (2 ^ (i + 1) * min (δ * 2) M) M = min (2 ^ (i + 2) * δ) M := by
  rcases le_total (δ * 2) M with h | h
  · rw [min_eq_left h]
    have e : 2 ^ (i + 1) * (δ * 2) = 2 ^ (i + 2) * δ := by ring
    rw [e]
  · rw [min_eq_right h]
    have h1 : M ≤ 2 ^ (i + 1) * M :=
      Nat.le_mul_of_pos_left M (by positivity)
    have h2 : δ * 2 ≤ 2 ^ (i + 2) * δ := by
      have : 2 ≤ 2 ^ (i + 2) := by
        calc 2 = 2 ^ 1 := by norm_num
        _ ≤ 2 ^ (i + 2) := Nat.pow_le_pow_right (by norm_num) (by omega)
      calc δ * 2 = 2 * δ := by ring
      _ ≤ 2 ^ (i + 2) * δ := Nat.mul_le_mul_right δ this
    rw [min_eq_right h1, min_eq_right (le_trans h h2)]

theorem backoffDelays_get (M : ℕ) :
    ∀ (n δ i : ℕ) (h : i < (backoffDelays M δ n).length),
      (backoffDelays M δ n).get ⟨i, h⟩ = min (2 ^ (i + 1) * δ) M := by
  intro n
  induction n with
  | zero => intro δ i h; simp [backoffDelays] at h
  | succ n ih =>
    intro δ i h
    match i with
    | 0 =>
      show min (δ * 2) M = min (2 ^ (0 + 1) * δ) M
      rw [pow_one, Nat.mul_comm]
    | j + 1 =>
      have hj : j < (backoffDelays M (min (δ * 2) M) n).length := by
        simp [backoffDelays_length] at h ⊢
        omega
      have step : (backoffDelays M δ (n + 1)).get ⟨j + 1, h⟩ =
          (backoffDelays M (min (δ * 2) M) n).get ⟨j, hj⟩ := rfl
      rw [step, ih (min (δ * 2) M) j hj, min_doubling_absorb]

theorem retryLoop_success_now (f M r a δ : ℕ) (h : f < a) :
    retryLoop (transientThenSuccess f) M (r + 1) a δ = ⟨.ok (), 1, []⟩ := by
  have hop : transientThenSuccess f a = .success () := by
    simp [transientThenSuccess, Nat.not_le.mpr h]
  match r with
  | 0 => rw [retryLoop, hop]; rfl
  | r' + 1 => rw [retryLoop, hop]; rfl

theorem retryLoop_transient_spec (f M : ℕ) :
    ∀ r a δ, a ≤ f →
      retryLoop (transientThenSuccess f) M r a δ =
        ⟨if f + 2 - a ≤ r then .ok () else .exhausted,
          min (f + 2 - a) r,
          backoffDelays M δ (min (f + 1 - a) (r - 1))⟩ := by
  intro r
  induction r using Nat.strong_induction_on with
  | _ r ih =>
    intro a δ ha
    have hop : transientThenSuccess f a = .transient := by
      simp [transientThenSuccess, ha]
    match r with
    | 0 =>
      have h1 : ¬(f + 2 - a ≤ 0) := by omega
      have h2 : min (f + 1 - a) (0 - 1) = 0 := by omega
      rw [if_neg h1, Nat.min_zero, h2]
      rfl
    | 1 =>
      have h1 : ¬(f + 2 - a ≤ 1) := by omega
      have h2 : min (f + 2 - a) 1 = 1 := by omega
      have h3 : min (f + 1 - a) (1 - 1) = 0 := by omega
      rw [retryLoop, hop, if_neg h1, h2, h3]
      rfl
    | r' + 2 =>
      have unfolded : retryLoop (transientThenSuccess f) M (r' + 2) a δ =
          ⟨(retryLoop (transientThenSuccess f) M (r' + 1) (a + 1)
              (min (δ * 2) M)).outcome,
            (retryLoop (transientThenSuccess f) M (r' + 1) (a + 1)
              (min (δ * 2) M)).calls + 1,
            min (δ * 2) M :: (retryLoop (transientThenSuccess f) M (r' + 1)
              (a + 1) (min (δ * 2) M)).delays⟩ := by
        rw [retryLoop, hop]
        rfl
      rcases Nat.lt_or_ge a f with hlt | hge
      · have rest := ih (r' + 1) (by omega) (a + 1) (min (δ * 2) M) (by omega)
        rw [unfolded, rest]
        have e1 : min (f + 2 - (a + 1)) (r' + 1) + 1 = min (f + 2 - a) (r' + 2) := by
          omega
        have e2 : min (f + 1 - a) (r' + 2 - 1) = min (f + 1 - (a + 1)) (r' + 1 - 1) + 1 := by
          omega
        have e3 : backoffDelays M δ (min (f + 1 - (a + 1)) (r' + 1 - 1) + 1) =
            min (δ * 2) M ::
              backoffDelays M (min (δ * 2) M) (min (f + 1 - (a + 1)) (r' + 1 - 1)) := rfl
        rcases le_or_lt (f + 2 - a) (r' + 2) with hc | hc
        · rw [if_pos (by omega : f + 2 - (a + 1) ≤ r' + 1), if_pos hc, e1, e2, e3]
        · rw [if_neg (by omega : ¬(f + 2 - (a + 1) ≤ r' + 1)), if_neg (by omega), e1, e2, e3]
      · have haf : a = f := by omega
        subst haf
        have rest := retryLoop_success_now a M r' (a + 1) (min (δ * 2) M) (by omega)
        rw [unfolded, rest]
        have e1 : min (a + 2 - a) (r' + 2) = 2 := by omega
        have e2 : min (a + 1 - a) (r' + 2 - 1) = 1 := by omega
        rw [if_pos (by omega : a + 2 - a ≤ r' + 2), e1, e2]
        simp [backoffDelays]

/-- C1 counterexample: with `config = (maxAttempts 3, initialDelay 1000,
maxDelay 10000)` and one transient failure followed by a success, the
single sleep delay is 2000 ms, not the `initialDelay` of 1000 ms claimed
for d₁: the code doubles `delay` before the first sleep. -/
theorem retryBackoff_first_delay_counterexample :
    (retryWithExponentialBackoff (transientThenSuccess 1)
      ⟨3, 1000, 10000⟩).delays = [2000] ∧
    (retryWithExponentialBackoff (transientThenSuccess 1)
      ⟨3, 1000, 10000⟩).calls = 2 ∧
    (2000 : ℕ) ≠ (⟨3, 1000, 10000⟩ : RetryConfig).initialDelay := by
  refine ⟨by decide, by decide, by decide⟩

/-- C1 (amended): with `failures` consecutive transient failures followed
by success, the operation is invoked exactly `min(failures + 1,
maxAttempts)` times, returning the first success if `failures + 1 ≤
maxAttempts` and raising the terminal exhausted-retries error otherwise;
the sleep-delay sequence has `min(failures, maxAttempts - 1)` entries and
satisfies dₙ = min(2ⁿ · initialDelay, maxDelay) — equivalently d₁ =
min(2 · initialDelay, maxDelay) (not initialDelay itself) and
dₙ₊₁ = min(2 · dₙ, maxDelay). -/
theorem retryBackoff_trace (cfg : RetryConfig) (f : ℕ) :
    (retryWithExponentialBackoff (transientThenSuccess f) cfg).calls =
      min (f + 1) cfg.maxAttempts ∧
    (retryWithExponentialBackoff (transientThenSuccess f) cfg).delays =
      backoffDelays cfg.maxDelay cfg.initialDelay
        (min f (cfg.maxAttempts - 1)) ∧
    (∀ (i : ℕ)
      (h : i < (retryWithExponentialBackoff (transientThenSuccess f) cfg).delays.length),
      (retryWithExponentialBackoff (transientThenSuccess f) cfg).delays.get ⟨i, h⟩ =
        min (2 ^ (i + 1) * cfg.initialDelay) cfg.maxDelay) ∧
    (retryWithExponentialBackoff (transientThenSuccess f) cfg).outcome =
      (if f + 1 ≤ cfg.maxAttempts then .ok () else .exhausted) := by
  rcases cfg with ⟨mA, d0, M⟩
  simp only [retryWithExponentialBackoff]
  rcases Nat.eq_zero_or_pos f with hf | hf
  · subst hf
    rcases mA with _ | r
    · refine ⟨by simp [retryLoop], by simp [retryLoop, backoffDelays], ?_,
        by simp [retryLoop]⟩
      intro i h
      simp [retryLoop] at h
    · rw [retryLoop_success_now 0 M r 1 d0 (by omega)]
      refine ⟨by simp, by simp [backoffDelays], ?_, by simp⟩
      intro i h
      simp at h
  · rw [retryLoop_transient_spec f M mA 1 d0 hf]
    have e1 : f + 2 - 1 = f + 1 := by omega
    have e2 : min (f + 1 - 1) (mA - 1) = min f (mA - 1) := by omega
    refine ⟨by simp only []; omega, by simp only [e2], ?_, by rw [e1]⟩
    intro i h
    exact backoffDelays_get M (min (f + 1 - 1) (mA - 1)) d0 i h

/-- C1 witness: concrete instantiation of the amended trace theorem,
discharging the delay-index hypothesis at index 0. -/
theorem retryBackoff_trace_witness :
    (retryWithExponentialBackoff (transientThenSuccess 2)
      ⟨3, 1000, 10000⟩).delays.get ⟨0, by decide⟩ =
      min (2 ^ (0 + 1) * 1000) 10000 :=
  (retryBackoff_trace ⟨3, 1000, 10000⟩ 2).2.2.1 0 (by decide)

/-- C2: with the zod schemas the service actually uses, a
shape-validation failure makes `schema.parse` throw, so `analyze`
propagates the error after exactly one completion call and never
recurses — the claimed 3-call retry scenario cannot occur; the
`!result.parsed` retry branch fires only when the parse RETURNS a falsy
value, which no `z.object` schema of this repository can produce. -/
theorem analyze_throwing_validation_not_retried :
    (∀ {α : Type} (parses : ℕ → ZodParseResult α) (retryCount : ℕ),
      parses retryCount = .throws →
      analyze parses retryCount = ⟨.error (), 1⟩) ∧
    (analyze throwsEveryTime 0).result = .error () ∧
    (analyze throwsEveryTime 0).completionCalls = 1 ∧
    (analyze falsyTwiceThenTruthy 0).completionCalls = 3 ∧
    (analyze falsyTwiceThenTruthy 0).result = .ok ((), true) := by
  refine ⟨?_, ?_, ?_, ?_, ?_⟩
  · intro α parses r h
    rw [analyze, h]
  · simp [analyze, throwsEveryTime]
  · simp [analyze, throwsEveryTime]
  · simp [analyze, falsyTwiceThenTruthy, maxRetries]
  · simp [analyze, falsyTwiceThenTruthy, maxRetries]

/-- C2 witness: the failing input — every attempt's parse throws — gives
one completion call and a propagated error. -/
theorem analyze_throwing_validation_not_retried_witness :
    analyze throwsEveryTime 0 = ⟨.error (), 1⟩ :=
  analyze_throwing_validation_not_retried.1 throwsEveryTime 0 rfl

theorem jsRound_clamp10 (W : ℤ) (q : ℚ) (hw : 20 ≤ W) :
    10 ≤ jsRound (max 10 (min ((W : ℚ) - 10) q)) ∧
    jsRound (max 10 (min ((W : ℚ) - 10) q)) ≤ W - 10 := by
  have hWq : (20 : ℚ) ≤ (W : ℚ) := by exact_mod_cast hw
  have h := jsRound_clamp_bounds 10 ((W : ℚ) - 10) 10 (W - 10) q
    (by norm_num) (by push_cast; linarith) (by linarith)
  exact h

theorem tapY_above_bound (Y H : ℤ) (vo rY : ℚ) (hvo : 0 ≤ vo)
    (hy : 40 ≤ Y) (h0 : 0 ≤ rY) (h1 : rY < 1) :
    jsRound (max 10 (min ((H : ℚ) - 10)
      (max 10 ((Y : ℚ) - vo - 50) + rY *
        max 1 (max (max 10 ((Y : ℚ) - vo - 50) + 20) ((Y : ℚ) - 10) -
          max 10 ((Y : ℚ) - vo - 50))))) < Y := by
  have hyq40 : (40 : ℚ) ≤ (Y : ℚ) := by exact_mod_cast hy
  set top := max (10 : ℚ) ((Y : ℚ) - vo - 50) with htop
  set bottom := max (top + 20) ((Y : ℚ) - 10) with hbot
  have htople : top ≤ (Y : ℚ) - 30 := max_le (by linarith) (by linarith)
  have hbotle : bottom ≤ (Y : ℚ) - 10 := max_le (by linarith) le_rfl
  have hbotge : top + 20 ≤ bottom := le_max_left _ _
  have hhgt : max (1 : ℚ) (bottom - top) = bottom - top :=
    max_eq_right (by linarith)
  rw [hhgt]
  have hry : rY * (bottom - top) ≤ bottom - top := by nlinarith
  have hfin : max (10 : ℚ) (min ((H : ℚ) - 10) (top + rY * (bottom - top))) ≤
      ((Y - 10 : ℤ) : ℚ) := by
    push_cast
    apply max_le (by linarith)
    calc min ((H : ℚ) - 10) (top + rY * (bottom - top)) ≤
        top + rY * (bottom - top) := min_le_right _ _
    _ ≤ bottom := by linarith
    _ ≤ (Y : ℚ) - 10 := hbotle
  have hle := jsRound_le (Y - 10) _ hfin
  omega

/-- C9 counterexample: element with top edge at y = 15 on a 400×800
screen, neutral handedness, default offset 50, randoms (1/2, 3/4): the
tap lands at y = 25, below the element's top edge, because the enforced
minimum tap-area height pushes the area down past the element. -/
theorem tapAbove_not_strictly_above_counterexample :
    TapRands.valid ⟨1 / 2, 3 / 4⟩ ∧
    (tapRandomPointAboveElement ⟨100, 15, 100, 50⟩ ⟨400, 800⟩ .neutral 50
      ⟨1 / 2, 3 / 4⟩).2 = 25 ∧
    ¬((tapRandomPointAboveElement ⟨100, 15, 100, 50⟩ ⟨400, 800⟩ .neutral 50
      ⟨1 / 2, 3 / 4⟩).2 < (⟨100, 15, 100, 50⟩ : ElemRect).y) := by
  have heval :
      (tapRandomPointAboveElement ⟨100, 15, 100, 50⟩ ⟨400, 800⟩ .neutral 50
        ⟨1 / 2, 3 / 4⟩).2 = 25 := by
    simp only [tapRandomPointAboveElement]
    norm_num [jsRound, max_def, min_def]
  refine ⟨by norm_num [TapRands.valid], heval, ?_⟩
  rw [heval]
  norm_num

/-- C9 (amended): whenever the element's top edge is at least 40 px from
the top of the screen and the vertical offset is nonnegative,
`tapRandomPointAboveElement` taps strictly above the element (final tap y
strictly less than the element's top edge), with both coordinates clamped
to the screen edges (within `[10, bound - 10]`); for elements closer to
the top the tap can land at or below the element's top edge. -/
theorem tapAbove_strictly_above_when_room (el : ElemRect) (win : WindowSize)
    (hd : Handedness) (vo : ℚ) (ρ : TapRands) (hv : ρ.valid) (hvo : 0 ≤ vo)
    (hy : 40 ≤ el.y) (hw : 20 ≤ win.width) (hh : 20 ≤ win.height) :
    (tapRandomPointAboveElement el win hd vo ρ).2 < el.y ∧
    10 ≤ (tapRandomPointAboveElement el win hd vo ρ).1 ∧
    (tapRandomPointAboveElement el win hd vo ρ).1 ≤ win.width - 10 ∧
    10 ≤ (tapRandomPointAboveElement el win hd vo ρ).2 ∧
    (tapRandomPointAboveElement el win hd vo ρ).2 ≤ win.height - 10 := by
  obtain ⟨hrx0, hrx1, hry0, hry1⟩ := hv
  simp only [tapRandomPointAboveElement]
  refine ⟨?_, ?_, ?_, ?_, ?_⟩
  · exact tapY_above_bound el.y win.height vo ρ.rY hvo hy hry0 hry1
  · exact (jsRound_clamp10 win.width _ hw).1
  · exact (jsRound_clamp10 win.width _ hw).2
  · exact (jsRound_clamp10 win.height _ hh).1
  · exact (jsRound_clamp10 win.height _ hh).2

/-- C9 witness: a concrete element far enough from the top. -/
theorem tapAbove_strictly_above_when_room_witness :
    (tapRandomPointAboveElement ⟨100, 300, 100, 50⟩ ⟨400, 800⟩ .right 50
      ⟨1 / 2, 3 / 4⟩).2 < (⟨100, 300, 100, 50⟩ : ElemRect).y ∧
    10 ≤ (tapRandomPointAboveElement ⟨100, 300, 100, 50⟩ ⟨400, 800⟩ .right 50
      ⟨1 / 2, 3 / 4⟩).1 :=
  ⟨(tapAbove_strictly_above_when_room ⟨100, 300, 100, 50⟩ ⟨400, 800⟩ .right 50
      ⟨1 / 2, 3 / 4⟩ (by norm_num [TapRands.valid]) (by norm_num) (by decide)
      (by decide) (by decide)).1,
    (tapAbove_strictly_above_when_room ⟨100, 300, 100, 50⟩ ⟨400, 800⟩ .right 50
      ⟨1 / 2, 3 / 4⟩ (by norm_num [TapRands.valid]) (by norm_num) (by decide)
      (by decide) (by decide)).2.1⟩

theorem handedStart_bounds (cx cy W H : ℚ) (hd : Handedness) (rX rY : ℚ)
    (hW : 100 ≤ W) (hH : 100 ≤ H) :
    50 ≤ (getHandedStartPosition cx cy W H hd rX rY).1 ∧
    (getHandedStartPosition cx cy W H hd rX rY).1 ≤ W - 50 ∧
    50 ≤ (getHandedStartPosition cx cy W H hd rX rY).2 ∧
    (getHandedStartPosition cx cy W H hd rX rY).2 ≤ H - 50 := by
  simp only [getHandedStartPosition]
  exact ⟨le_max_left _ _, max_le (by linarith) (min_le_left _ _),
    le_max_left _ _, max_le (by linarith) (min_le_left _ _)⟩

theorem handedStartInElement_bounds (cx cy w h : ℚ) (hd : Handedness)
    (rX rY : ℚ) (hx0 : 0 ≤ rX) (hx1 : rX < 1) (hy0 : 0 ≤ rY) (hy1 : rY < 1)
    (hw : 0 ≤ w) (hh : 0 ≤ h) :
    cx - 11 / 40 * w ≤ (getHandedStartPositionInElement cx cy w h hd rX rY).1 ∧
    (getHandedStartPositionInElement cx cy w h hd rX rY).1 ≤ cx + 11 / 40 * w ∧
    cy - h / 8 ≤ (getHandedStartPositionInElement cx cy w h hd rX rY).2 ∧
    (getHandedStartPositionInElement cx cy w h hd rX rY).2 ≤ cy + h / 8 := by
  have hmv0 : 0 ≤ min (w * (1 / 10)) 30 := le_min (by linarith) (by norm_num)
  have hmv1 : min (w * (1 / 10)) 30 ≤ w * (1 / 10) := min_le_left _ _
  have hvv0 : 0 ≤ min (h * (25 / 100)) 100 := le_min (by linarith) (by norm_num)
  have hvv1 : min (h * (25 / 100)) 100 ≤ h * (25 / 100) := min_le_left _ _
  obtain ⟨hxm1, hxm2⟩ := rand_mul_bounds rX _ hx0 hx1 hmv0
  obtain ⟨hxc1, hxc2⟩ := centered_rand_mul_bounds rX _ hx0 hx1 hmv0
  obtain ⟨hym1, hym2⟩ := centered_rand_mul_bounds rY _ hy0 hy1 hvv0
  cases hd <;> simp only [getHandedStartPositionInElement] <;>
    exact ⟨by linarith, by linarith, by linarith, by linarith⟩

theorem swipeScreen_bounds (d : SwipeDirection) (sp : SwipeSpeed)
    (ln : SwipeLength) (hd : Handedness) (win : WindowSize) (ρ : SwipeRands)
    (hW : 100 ≤ win.width) (hH : 100 ≤ win.height) :
    0 ≤ (swipeScreen d sp ln hd win ρ).fromX ∧
    (swipeScreen d sp ln hd win ρ).fromX ≤ win.width ∧
    0 ≤ (swipeScreen d sp ln hd win ρ).fromY ∧
    (swipeScreen d sp ln hd win ρ).fromY ≤ win.height ∧
    0 ≤ (swipeScreen d sp ln hd win ρ).toX ∧
    (swipeScreen d sp ln hd win ρ).toX ≤ win.width ∧
    0 ≤ (swipeScreen d sp ln hd win ρ).toY ∧
    (swipeScreen d sp ln hd win ρ).toY ≤ win.height := by
  have hWq : (100 : ℚ) ≤ (win.width : ℚ) := by exact_mod_cast hW
  have hHq : (100 : ℚ) ≤ (win.height : ℚ) := by exact_mod_cast hH
  simp only [swipeScreen]
  obtain ⟨h1, h2, h3, h4⟩ := handedStart_bounds
    ((jsFloor ((win.width : ℚ) / 2) : ℤ) : ℚ)
    ((jsFloor ((win.height : ℚ) / 2) : ℤ) : ℚ)
    (win.width : ℚ) (win.height : ℚ) hd ρ.rStartX ρ.rStartY hWq hHq
  refine ⟨le_jsRound 0 _ (by push_cast; linarith),
    jsRound_le win.width _ (by push_cast; linarith),
    le_jsRound 0 _ (by push_cast; linarith),
    jsRound_le win.height _ (by push_cast; linarith),
    (jsRound_clamp_bounds 10 ((win.width : ℚ) - 10) 0 win.width _
      (by norm_num) (by push_cast; linarith) (by linarith)).1,
    (jsRound_clamp_bounds 10 ((win.width : ℚ) - 10) 0 win.width _
      (by norm_num) (by push_cast; linarith) (by linarith)).2,
    (jsRound_clamp_bounds 10 ((win.height : ℚ) - 10) 0 win.height _
      (by norm_num) (by push_cast; linarith) (by linarith)).1,
    (jsRound_clamp_bounds 10 ((win.height : ℚ) - 10) 0 win.height _
      (by norm_num) (by push_cast; linarith) (by linarith)).2⟩

theorem swipeWithinElement_bounds (el : ElemRect) (d : SwipeDirection)
    (sp : SwipeSpeed) (ln : SwipeLength) (hd : Handedness) (ρ : SwipeRands)
    (g : SwipeGesture) (hv : ρ.valid)
    (heq : swipeWithinElement el d sp ln hd ρ = some g) :
    el.x ≤ g.fromX ∧ g.fromX ≤ el.x + el.width ∧
    el.y ≤ g.fromY ∧ g.fromY ≤ el.y + el.height ∧
    el.x ≤ g.toX ∧ g.toX ≤ el.x + el.width ∧
    el.y ≤ g.toY ∧ g.toY ≤ el.y + el.height := by
  obtain ⟨hx0, hx1, hy0, hy1, -, -, -, -, -, -⟩ := hv
  simp only [swipeWithinElement] at heq
  split at heq
  · simp at heq
  · rw [Option.some.injEq] at heq
    subst heq
    rename_i hcond
    push_neg at hcond
    obtain ⟨hcw, hch⟩ := hcond
    have hwq : (40 : ℚ) < (el.width : ℚ) := by linarith
    have hhq : (40 : ℚ) < (el.height : ℚ) := by linarith
    obtain ⟨s1, s2, s3, s4⟩ := handedStartInElement_bounds
      ((el.x : ℚ) + (el.width : ℚ) / 2) ((el.y : ℚ) + (el.height : ℚ) / 2)
      (el.width : ℚ) (el.height : ℚ) hd ρ.rStartX ρ.rStartY hx0 hx1 hy0 hy1
      (by linarith) (by linarith)
    refine ⟨le_jsRound el.x _ (by push_cast; linarith),
      jsRound_le (el.x + el.width) _ (by push_cast; linarith),
      le_jsRound el.y _ (by push_cast; linarith),
      jsRound_le (el.y + el.height) _ (by push_cast; linarith),
      (jsRound_clamp_bounds ((el.x : ℚ) + 10)
        ((el.x : ℚ) + (el.width : ℚ) - 10) el.x (el.x + el.width) _
        (by push_cast; linarith) (by push_cast; linarith) (by linarith)).1,
      (jsRound_clamp_bounds ((el.x : ℚ) + 10)
        ((el.x : ℚ) + (el.width : ℚ) - 10) el.x (el.x + el.width) _
        (by push_cast; linarith) (by push_cast; linarith) (by linarith)).2,
      (jsRound_clamp_bounds ((el.y : ℚ) + 10)
        ((el.y : ℚ) + (el.height : ℚ) - 10) el.y (el.y + el.height) _
        (by push_cast; linarith) (by push_cast; linarith) (by linarith)).1,
      (jsRound_clamp_bounds ((el.y : ℚ) + 10)
        ((el.y : ℚ) + (el.height : ℚ) - 10) el.y (el.y + el.height) _
        (by push_cast; linarith) (by push_cast; linarith) (by linarith)).2⟩

theorem swipeStartingFromElement_bounds (el : ElemRect) (d : SwipeDirection)
    (sp : SwipeSpeed) (ln : SwipeLength) (hd : Handedness) (win : WindowSize)
    (ρ : SwipeRands) (g : SwipeGesture)
    (hex : 0 ≤ el.x) (hey : 0 ≤ el.y) (hxw : el.x + el.width ≤ win.width)
    (hyh : el.y + el.height ≤ win.height)
    (heq : swipeStartingFromElement el d sp ln hd win ρ = some g) :
    0 ≤ g.fromX ∧ g.fromX ≤ win.width ∧
    0 ≤ g.fromY ∧ g.fromY ≤ win.height ∧
    0 ≤ g.toX ∧ g.toX ≤ win.width ∧
    0 ≤ g.toY ∧ g.toY ≤ win.height := by
  have hexq : (0 : ℚ) ≤ (el.x : ℚ) := by exact_mod_cast hex
  have heyq : (0 : ℚ) ≤ (el.y : ℚ) := by exact_mod_cast hey
  have hxwq : (el.x : ℚ) + (el.width : ℚ) ≤ (win.width : ℚ) := by
    exact_mod_cast hxw
  have hyhq : (el.y : ℚ) + (el.height : ℚ) ≤ (win.height : ℚ) := by
    exact_mod_cast hyh
  simp only [swipeStartingFromElement] at heq
  split at heq
  · simp at heq
  · rw [Option.some.injEq] at heq
    subst heq
    rename_i hcond
    push_neg at hcond
    obtain ⟨hcw, hch⟩ := hcond
    have hwq : (20 : ℚ) < (el.width : ℚ) := by linarith
    have hhq : (20 : ℚ) < (el.height : ℚ) := by linarith
    refine ⟨(jsRound_clamp_bounds ((el.x : ℚ) + 5)
        ((el.x : ℚ) + (el.width : ℚ) - 5) 0 win.width _
        (by push_cast; linarith) (by push_cast; linarith) (by linarith)).1,
      (jsRound_clamp_bounds ((el.x : ℚ) + 5)
        ((el.x : ℚ) + (el.width : ℚ) - 5) 0 win.width _
        (by push_cast; linarith) (by push_cast; linarith) (by linarith)).2,
      (jsRound_clamp_bounds ((el.y : ℚ) + 5)
        ((el.y : ℚ) + (el.height : ℚ) - 5) 0 win.height _
        (by push_cast; linarith) (by push_cast; linarith) (by linarith)).1,
      (jsRound_clamp_bounds ((el.y : ℚ) + 5)
        ((el.y : ℚ) + (el.height : ℚ) - 5) 0 win.height _
        (by push_cast; linarith) (by push_cast; linarith) (by linarith)).2,
      (jsRound_clamp_bounds 10 ((win.width : ℚ) - 10) 0 win.width _
        (by norm_num) (by push_cast; linarith) (by linarith)).1,
      (jsRound_clamp_bounds 10 ((win.width : ℚ) - 10) 0 win.width _
        (by norm_num) (by push_cast; linarith) (by linarith)).2,
      (jsRound_clamp_bounds 10 ((win.height : ℚ) - 10) 0 win.height _
        (by norm_num) (by push_cast; linarith) (by linarith)).1,
      (jsRound_clamp_bounds 10 ((win.height : ℚ) - 10) 0 win.height _
        (by norm_num) (by push_cast; linarith) (by linarith)).2⟩

/-- C6: for every gesture computation and every combination of direction,
speed, length, and handedness, with each `Math.random()` draw in `[0, 1)`:
screen swipes (on a frame at least 100 px in each dimension) produce start
and end coordinates within `[0, frame bound]`; within-element swipes,
whenever a gesture is actually performed, produce coordinates within the
element's bounds; from-element swipes, whenever performed on an element
that lies within the frame, produce coordinates within the frame bounds. -/
theorem gesture_coordinates_within_bounds :
    (∀ (d : SwipeDirection) (sp : SwipeSpeed) (ln : SwipeLength)
      (hd : Handedness) (win : WindowSize) (ρ : SwipeRands), ρ.valid →
      100 ≤ win.width → 100 ≤ win.height →
      (0 ≤ (swipeScreen d sp ln hd win ρ).fromX ∧
        (swipeScreen d sp ln hd win ρ).fromX ≤ win.width ∧
        0 ≤ (swipeScreen d sp ln hd win ρ).fromY ∧
        (swipeScreen d sp ln hd win ρ).fromY ≤ win.height ∧
        0 ≤ (swipeScreen d sp ln hd win ρ).toX ∧
        (swipeScreen d sp ln hd win ρ).toX ≤ win.width ∧
        0 ≤ (swipeScreen d sp ln hd win ρ).toY ∧
        (swipeScreen d sp ln hd win ρ).toY ≤ win.height)) ∧
    (∀ (d : SwipeDirection) (sp : SwipeSpeed) (ln : SwipeLength)
      (hd : Handedness) (el : ElemRect) (ρ : SwipeRands) (g : SwipeGesture),
      ρ.valid → swipeWithinElement el d sp ln hd ρ = some g →
      (el.x ≤ g.fromX ∧ g.fromX ≤ el.x + el.width ∧
        el.y ≤ g.fromY ∧ g.fromY ≤ el.y + el.height ∧
        el.x ≤ g.toX ∧ g.toX ≤ el.x + el.width ∧
        el.y ≤ g.toY ∧ g.toY ≤ el.y + el.height)) ∧
    (∀ (d : SwipeDirection) (sp : SwipeSpeed) (ln : SwipeLength)
      (hd : Handedness) (el : ElemRect) (win : WindowSize) (ρ : SwipeRands)
      (g : SwipeGesture), ρ.valid →
      0 ≤ el.x → 0 ≤ el.y → el.x + el.width ≤ win.width →
      el.y + el.height ≤ win.height →
      swipeStartingFromElement el d sp ln hd win ρ = some g →
      (0 ≤ g.fromX ∧ g.fromX ≤ win.width ∧
        0 ≤ g.fromY ∧ g.fromY ≤ win.height ∧
        0 ≤ g.toX ∧ g.toX ≤ win.width ∧
        0 ≤ g.toY ∧ g.toY ≤ win.height)) := by
  refine ⟨fun d sp ln hd win ρ _ hW hH =>
      swipeScreen_bounds d sp ln hd win ρ hW hH,
    fun d sp ln hd el ρ g hv heq =>
      swipeWithinElement_bounds el d sp ln hd ρ g hv heq,
    fun d sp ln hd el win ρ g _ hex hey hxw hyh heq =>
      swipeStartingFromElement_bounds el d sp ln hd win ρ g hex hey hxw hyh heq⟩

/-- C6 witness: all three gesture kinds at concrete inputs, with every
hypothesis discharged concretely. -/
theorem gesture_coordinates_within_bounds_witness :
    SwipeRands.valid ⟨0, 0, 0, 0, 0⟩ ∧
    (100 : ℤ) ≤ (⟨400, 800⟩ : WindowSize).width ∧
    0 ≤ (swipeScreen .up .medium .medium .neutral ⟨400, 800⟩
      ⟨0, 0, 0, 0, 0⟩).fromX ∧
    swipeWithinElement ⟨50, 100, 300, 200⟩ .up .medium .medium .right
      ⟨0, 0, 0, 0, 0⟩ = some ⟨253, 175, 243, 149, 100⟩ ∧
    (⟨50, 100, 300, 200⟩ : ElemRect).x ≤
      (⟨253, 175, 243, 149, 100⟩ : SwipeGesture).fromX ∧
    swipeStartingFromElement ⟨50, 100, 300, 200⟩ .down .fast .short .right
      ⟨400, 800⟩ ⟨0, 0, 0, 0, 0⟩ = some ⟨253, 175, 233, 298, 50⟩ ∧
    0 ≤ (⟨253, 175, 233, 298, 50⟩ : SwipeGesture).fromX := by
  have hval : SwipeRands.valid ⟨0, 0, 0, 0, 0⟩ := by
    norm_num [SwipeRands.valid]
  have heq2 : swipeWithinElement ⟨50, 100, 300, 200⟩ .up .medium .medium
      .right ⟨0, 0, 0, 0, 0⟩ = some ⟨253, 175, 243, 149, 100⟩ := by
    simp only [swipeWithinElement, getHandedStartPositionInElement,
      getSwipeDistanceMultiplier, getSwipeDuration]
    norm_num [jsRound, max_def, min_def]
  have heq3 : swipeStartingFromElement ⟨50, 100, 300, 200⟩ .down .fast .short
      .right ⟨400, 800⟩ ⟨0, 0, 0, 0, 0⟩ = some ⟨253, 175, 233, 298, 50⟩ := by
    simp only [swipeStartingFromElement, getHandedStartPositionInElement,
      getSwipeDistanceMultiplier, getSwipeDuration]
    norm_num [jsRound, max_def, min_def]
  refine ⟨hval, by decide,
    (gesture_coordinates_within_bounds.1 .up .medium .medium .neutral
      ⟨400, 800⟩ ⟨0, 0, 0, 0, 0⟩ hval (by decide) (by decide)).1,
    heq2,
    (gesture_coordinates_within_bounds.2.1 .up .medium .medium .right
      ⟨50, 100, 300, 200⟩ ⟨0, 0, 0, 0, 0⟩ ⟨253, 175, 243, 149, 100⟩ hval
      heq2).1,
    heq3,
    (gesture_coordinates_within_bounds.2.2 .down .fast .short .right
      ⟨50, 100, 300, 200⟩ ⟨400, 800⟩ ⟨0, 0, 0, 0, 0⟩ ⟨253, 175, 233, 298, 50⟩
      hval (by decide) (by decide) (by decide) (by decide) heq3).1⟩
